import Mathlib

/-! # saml-sp-proxy: the composition in `main.go`

`main.go` wires four libraries together: goji (router), crewjam/saml (SAML service
provider and session gate), vulcand/oxy (buffer / round-robin / forward) and the Go
standard library (`flag`, `net/http`, logrus for fatal logging).  The development below
embeds the wiring of `main.go` and, for each library call, the behaviour the call has
for the arguments `main.go` passes.
-/

namespace SamlSpProxy

/-! ## HTTP values -/

/-- Request and response bodies are byte strings. -/
abbrev Body := List Nat

/-- The part of an inbound request the gateway looks at: the escaped URL path the
router matches on, the session cookie (if any) and the body. -/
structure Request where
  path : String
  cookie : Option String
  body : Body
deriving DecidableEq, Repr

/-- An HTTP response: status code, `Location` header (if any) and body. -/
structure Response where
  code : Nat
  location : Option String
  body : Body
deriving DecidableEq, Repr

/-- Go `strings.HasPrefix`. -/
def HasPrefix (s pre : String) : Bool := pre.data.isPrefixOf s.data

/-- Go `strings.HasSuffix`. -/
def HasSuffix (s suf : String) : Bool := suf.data.isSuffixOf s.data

/-! ## Router (`goji.NewMux`, `pat.New`) -/

/-- The handlers `main` builds (main.go:142-144): the SAML middleware itself, a handler
wrapped by `samlSP.RequireAccount`, and the buffer at the head of the proxy chain
buffer -> load balancer -> forwarder. -/
inductive Handler where
  | samlSP
  | RequireAccount (handler : Handler)
  | buffer
deriving DecidableEq, Repr

/-- A compiled goji `pat` pattern without named segments: the literal text and whether
the pattern is a wildcard (it ended in "/*"). -/
structure Pattern where
  raw : String
  literal : String
  wildcard : Bool
deriving DecidableEq, Repr

/-- Go `pat.New` for patterns without `:name` segments (both patterns of `main` are such):
a pattern ending in "/*" is a wildcard whose literal is the pattern without the
final `*`; any other pattern is matched exactly. -/
def pat.New (p : String) : Pattern :=
  if HasSuffix p "/*" then
    { raw := p, literal := String.mk (p.data.take (p.data.length - 1)), wildcard := true }
  else
    { raw := p, literal := p, wildcard := false }

/-- Go `Pattern.Match` on the request path: a wildcard matches every path that starts with
its literal, a plain pattern matches the path equal to its literal. -/
def Pattern.Match (p : Pattern) (path : String) : Bool :=
  if p.wildcard then HasPrefix path p.literal else decide (path = p.literal)

/-- A goji mux: the routes in registration order. -/
structure Mux where
  routes : List (Pattern × Handler)
deriving DecidableEq, Repr

/-- Go `goji.NewMux()`: a mux without routes. -/
def goji.NewMux : Mux := { routes := [] }

/-- Go `Mux.Handle`: registers a route after the ones already present. -/
def Mux.Handle (m : Mux) (p : Pattern) (h : Handler) : Mux :=
  { routes := m.routes ++ [(p, h)] }

/-- The mux picks the first registered route whose pattern matches; `none` when no route
matches (goji then answers `http.NotFound`). -/
def Mux.route (m : Mux) (path : String) : Option Handler :=
  (m.routes.find? (fun r => r.1.Match path)).map (fun r => r.2)

/-- The router of `main` (main.go:139-144). -/
def router : Mux :=
  let router := goji.NewMux
  let router := router.Handle (pat.New "/saml/*") Handler.samlSP
  let router := router.Handle (pat.New "/*") (Handler.RequireAccount Handler.buffer)
  router

/-! ## Reverse proxy chain (`forward.New`, `roundrobin.New`, `buffer.New`) -/

/-- What one dispatch to a backend ends in: a response the backend itself produced, or a
connection-level failure (a Go `net.Error`: refused, reset, or a timeout). -/
inductive RoundTrip where
  | response (r : Response)
  | netError (timeout : Bool)
deriving DecidableEq, Repr

/-- One request dispatched to a backend: the target chosen, the path and the body bytes
sent. -/
structure Attempt where
  target : String
  path : String
  body : Body
deriving DecidableEq, Repr

/-- The backends as seen from the gateway: the outcome of a dispatch, given how many
dispatches were made before it and what is dispatched. -/
abbrev Transport := Nat → Attempt → RoundTrip

/-- A request body stream: the bytes and the read position.  Reading consumes. -/
structure Reader where
  data : Body
  pos : Nat
deriving DecidableEq, Repr

/-- Reads the stream to its end. -/
def Reader.readAll (b : Reader) : Body × Reader :=
  (b.data.drop b.pos, { b with pos := b.data.length })

/-- Go `Seek(0, 0)`: rewinds the stream to its start. -/
def Reader.Seek (b : Reader) : Reader := { b with pos := 0 }

/-- Modelled from the spec: the pool of `roundrobin.RoundRobin` (vulcand/oxy, a library
that is not under src/): the targets in insertion order and the rotation position. -/
structure RoundRobin where
  servers : List String
  index : Nat
deriving DecidableEq, Repr

/-- Go `roundrobin.New`: an empty pool. -/
def roundrobin.New : RoundRobin := { servers := [], index := 0 }

/-- Modelled from the spec: `RoundRobin.UpsertServer` (spec 4.4 `AddTarget`), missing from
src/: adds the target unless it is already in the pool, and restarts the rotation. -/
def RoundRobin.UpsertServer (r : RoundRobin) (u : String) : RoundRobin :=
  if u ∈ r.servers then { r with index := 0 } else { servers := r.servers ++ [u], index := 0 }

/-- Modelled from the spec: `RoundRobin.NextServer` (spec 4.4 `Next`), missing from src/:
round-robin over the pool; fails (`none`, the spec's `NoLiveBackends`) on an empty pool. -/
def RoundRobin.NextServer (r : RoundRobin) : Option (String × RoundRobin) :=
  match r.servers with
  | [] => none
  | s :: ss =>
    some ((s :: ss).getD (r.index % (s :: ss).length) s,
          { r with index := (r.index + 1) % (s :: ss).length })

/-- The state the proxy chain carries between requests: the load balancer and the log
of every request dispatched to a backend, oldest first. -/
structure ProxyState where
  lb : RoundRobin
  sent : List Attempt
deriving DecidableEq, Repr

/-- Go `http.StatusText` for the codes the gateway itself produces, as bytes. -/
def StatusText (code : Nat) : Body :=
  let text :=
    if code = 404 then "Not Found"
    else if code = 500 then "Internal Server Error"
    else if code = 502 then "Bad Gateway"
    else if code = 504 then "Gateway Timeout"
    else ""
  text.data.map Char.toNat

/-- The forwarder (`forward.New()`, main.go:114) serving one request towards `target`: it
reads the body stream to its end, dispatches, and copies the backend response to the
client; a connection-level failure goes to the default error handler, which answers
504 Gateway Timeout for a timeout and 502 Bad Gateway otherwise. -/
def forward.ServeHTTP (t : Transport) (target path : String) (body : Reader)
    (s : ProxyState) : Response × Reader × ProxyState :=
  let (bytes, body) := body.readAll
  let a : Attempt := { target := target, path := path, body := bytes }
  let s' := { s with sent := s.sent ++ [a] }
  match t s.sent.length a with
  | RoundTrip.response r => (r, body, s')
  | RoundTrip.netError true => ({ code := 504, location := none, body := StatusText 504 }, body, s')
  | RoundTrip.netError false => ({ code := 502, location := none, body := StatusText 502 }, body, s')

/-- The load balancer (`roundrobin.New(fwd)`, main.go:119) serving one request: picks the
next target and hands the request to the forwarder; with no target it answers 500
without dispatching. -/
def roundrobin.ServeHTTP (t : Transport) (path : String) (body : Reader)
    (s : ProxyState) : Response × Reader × ProxyState :=
  match s.lb.NextServer with
  | none => ({ code := 500, location := none, body := StatusText 500 }, body, s)
  | some (u, lb) => forward.ServeHTTP t u path body { s with lb := lb }

/-- The context a retry predicate of oxy's buffer is evaluated in. -/
structure context where
  attempt : Nat
  responseCode : Nat
deriving DecidableEq, Repr

/-- The predicate `IsNetworkError()` of oxy's buffer: the attempt ended with the status
of a network error, 502 Bad Gateway or 504 Gateway Timeout (main.go:124-125: "status
corresponding to nework error (e.g. Gateway Timeout)"). -/
def IsNetworkError (c : context) : Bool :=
  c.responseCode == 502 || c.responseCode == 504

/-- The mapper `Attempts()` of oxy's buffer: the number of the attempt just made. -/
def Attempts (c : context) : Nat := c.attempt

/-- The retry predicate of main.go:126, `IsNetworkError() && Attempts() < 3`. -/
def retryPredicate (c : context) : Bool :=
  IsNetworkError c && decide (Attempts c < 3)

/-- The buffer never retries past this many attempts, whatever the predicate says. -/
def DefaultMaxRetryAttempts : Nat := 10

/-- The attempt loop of the buffer: serve through the next handler (the load balancer);
when the attempt bound is passed or the predicate declines, the response of this
attempt is written to the client; otherwise the attempt count goes up, the buffered
body is rewound and the request is replayed.  `none` only when `fuel` runs out. -/
def buffer.loop (t : Transport) (path : String) :
    Nat → Nat → Reader → ProxyState → Option (Response × ProxyState)
  | 0, _, _, _ => none
  | fuel + 1, attempt, body, s =>
    match roundrobin.ServeHTTP t path body s with
    | (resp, body, s) =>
      if attempt > DefaultMaxRetryAttempts
          || !retryPredicate { attempt := attempt, responseCode := resp.code } then
        some (resp, s)
      else
        buffer.loop t path fuel (attempt + 1) body.Seek s

/-- The buffer (`buffer.New(lb, buffer.Retry(...))`, main.go:126) serving one request: the
request body is read into a rewindable buffer and the attempt loop starts at attempt 1.
The loop needs at most `DefaultMaxRetryAttempts + 1` rounds. -/
def buffer.ServeHTTP (t : Transport) (req : Request) (s : ProxyState) :
    Option (Response × ProxyState) :=
  buffer.loop t req.path (DefaultMaxRetryAttempts + 1) 1 { data := req.body, pos := 0 } s

/-! ## Session gate (`samlsp.Middleware`) and the gateway -/

/-- The parts of `*samlsp.Middleware` (crewjam/saml) the gateway relies on, as given
functions: how the SAML endpoints answer, whether a request carries a valid session
cookie, and the login URL a request is sent to. -/
structure Middleware where
  ServeHTTP : Request → Response
  IsAuthorized : Request → Bool
  loginURL : Request → String

/-- The result of serving a request: the response and the proxy state after it; `none`
only when the attempt loop ran out of fuel. -/
abbrev Served := Option (Response × ProxyState)

/-- Modelled from the spec: `Middleware.RequireAccount` (spec 4.3 `Admit`), code of
crewjam/saml that is not under src/: a request with a valid session is passed to the
wrapped handler, any other request is redirected (302) to the login URL and the wrapped
handler is not called. -/
def Middleware.RequireAccount (m : Middleware) (handler : Request → ProxyState → Served) :
    Request → ProxyState → Served :=
  fun r s =>
    if m.IsAuthorized r then handler r s
    else some ({ code := 302, location := some (m.loginURL r), body := [] }, s)

/-- How each handler of `main` serves a request. -/
def Handler.ServeHTTP (m : Middleware) (t : Transport) : Handler → Request → ProxyState → Served
  | Handler.samlSP, r, s => some (m.ServeHTTP r, s)
  | Handler.RequireAccount h, r, s => m.RequireAccount (Handler.ServeHTTP m t h) r s
  | Handler.buffer, r, s => buffer.ServeHTTP t r s

/-- Go `http.NotFound`: status 404 with the body "404 page not found" and a newline. -/
def http.NotFound : Response :=
  { code := 404, location := none, body := "404 page not found\n".data.map Char.toNat }

/-- The mux serving a request: the first matching route handles it; with no matching
route the mux answers `http.NotFound`. -/
def Mux.ServeHTTP (mux : Mux) (m : Middleware) (t : Transport) (r : Request)
    (s : ProxyState) : Served :=
  match mux.route r.path with
  | none => some (http.NotFound, s)
  | some h => h.ServeHTTP m t r s

/-- The load balancer after startup (main.go:119, 136): one target, upserted once. -/
def startLB (target : String) : RoundRobin :=
  roundrobin.New.UpsertServer target

/-! ## Command line (`flag.String`, `flag.Parse`) -/

/-- Error values are messages. -/
abbrev Err := String

/-- The command-line flag set: the defined flags with their current values (every flag
`main` defines is a string flag) and the arguments not yet parsed. -/
structure FlagSet where
  formal : List (String × String)
  args : List String
deriving DecidableEq, Repr

/-- Go `flag.String(name, value, usage)`: defines a string flag with its default value
(written in lower case: `String` is the type of strings here). -/
def flag.string (f : FlagSet) (name value : String) : FlagSet :=
  { f with formal := f.formal ++ [(name, value)] }

/-- The value a flag pointer returned by `flag.String` points to. -/
def FlagSet.get (f : FlagSet) (name : String) : String :=
  ((f.formal.find? (fun d => d.1 == name)).map (fun d => d.2)).getD ""

/-- Go `Value.Set` on the flag called `name`. -/
def FlagSet.set (f : FlagSet) (name value : String) : FlagSet :=
  { f with formal := f.formal.map (fun d => if d.1 == name then (d.1, value) else d) }

/-- The error `flag.ErrHelp`. -/
def ErrHelp : Err := "flag: help requested"

/-- Go `FlagSet.parseOne`: parses one flag off the front of the arguments and reports
whether it saw one.  An argument shorter than two bytes or not starting with `-` ends
the flags, so does `--`; one or two leading dashes are stripped, and a name that is
then empty or starts with `-` or `=` is a syntax error; the name is cut at the first
`=` past its first byte; an undefined name is an error; the value is what follows
the `=`, else the next argument. -/
def FlagSet.parseOne (f : FlagSet) : FlagSet × Bool × Option Err :=
  match f.args with
  | [] => (f, false, none)
  | s :: rest =>
    match s.data with
    | [] => (f, false, none)
    | [_] => (f, false, none)
    | c0 :: c1 :: cs =>
      if c0 ≠ '-' then (f, false, none)
      else if c1 = '-' ∧ cs = [] then ({ f with args := rest }, false, none)
      else
        let name := if c1 = '-' then cs else c1 :: cs
        match name with
        | [] => (f, false, some ("bad flag syntax: " ++ s))
        | n0 :: ns =>
          if n0 = '-' ∨ n0 = '=' then (f, false, some ("bad flag syntax: " ++ s))
          else
            let f := { f with args := rest }
            let cut := ns.span (fun c => c ≠ '=')
            let name := String.mk (n0 :: cut.1)
            let hasValue := !cut.2.isEmpty
            let value := String.mk cut.2.tail
            if f.formal.any (fun d => d.1 == name) then
              if hasValue then (f.set name value, true, none)
              else
                match f.args with
                | v :: rest => ({ f with args := rest }.set name v, true, none)
                | [] => (f, false, some ("flag needs an argument: -" ++ name))
            else if name = "help" ∨ name = "h" then (f, false, some ErrHelp)
            else (f, false, some ("flag provided but not defined: -" ++ name))

/-- The loop of Go `FlagSet.Parse` under `ExitOnError` (the setting of the command-line
flag set): parse flags while one is seen; an error ends the process with status 0 for
`ErrHelp` and 2 otherwise.  Each seen flag consumes an argument, so `args.length + 1`
rounds are enough; the loop stops when `fuel` runs out. -/
def FlagSet.parseLoop : Nat → FlagSet → Except Nat FlagSet
  | 0, f => Except.ok f
  | fuel + 1, f =>
    match f.parseOne with
    | (f, true, _) => FlagSet.parseLoop fuel f
    | (f, false, none) => Except.ok f
    | (_, false, some err) => Except.error (if err = ErrHelp then 0 else 2)

/-- Go `flag.Parse()` on the command-line arguments. -/
def FlagSet.Parse (f : FlagSet) (arguments : List String) : Except Nat FlagSet :=
  FlagSet.parseLoop (arguments.length + 1) { f with args := arguments }

/-- The configuration (main.go:27-35), with the values the flag pointers point to. -/
structure Config where
  Target : String
  ServiceRootURL : String
  ServiceCertificate : String
  ServiceKey : String
  IdpMetadata : String
  HttpsCertificate : String
  HttpsKey : String
deriving DecidableEq, Repr

/-- The flags `main` defines (main.go:57-63), in order. -/
def flags : FlagSet :=
  let f : FlagSet := { formal := [], args := [] }
  let f := flag.string f "target" ""
  let f := flag.string f "service-root-url" ""
  let f := flag.string f "service-certificate" ""
  let f := flag.string f "service-key" ""
  let f := flag.string f "idp-metadata" ""
  let f := flag.string f "-https-certificate" ""
  let f := flag.string f "-https-key" ""
  f

/-- The configuration read through the flag pointers after parsing. -/
def FlagSet.config (f : FlagSet) : Config :=
  { Target := f.get "target"
    ServiceRootURL := f.get "service-root-url"
    ServiceCertificate := f.get "service-certificate"
    ServiceKey := f.get "service-key"
    IdpMetadata := f.get "idp-metadata"
    HttpsCertificate := f.get "-https-certificate"
    HttpsKey := f.get "-https-key" }

/-! ## Startup (`main`, `readIdpMetadata`) -/

/-- How the listener is started (main.go:156-160). -/
inductive Listener where
  | ListenAndServe
  | ListenAndServeTLS (certFile keyFile : String)
deriving DecidableEq, Repr

/-- The steps of startup that reach outside the program, in the order of `main`, and the
ways it ends a run. -/
inductive Event where
  | LoadX509KeyPair (certFile keyFile : String)
  | ParseCertificate
  | urlParse (rawurl : String)
  | ReadFile (path : String)
  | Unmarshal
  | samlspNew
  | forwardNew
  | roundrobinNew
  | bufferNew (retry : String)
  | UpsertServer (target : String)
  | Handle (pattern : String) (h : Handler)
  | Listen (l : Listener) (handler : Mux)
  | Fatal (fields : List (String × String)) (args : List String)
  | Exit (code : Nat)
  | Panic
deriving DecidableEq, Repr

/-- What each fallible call of startup finds in its surroundings: `none` is success, `some
err` the error it returns.  `keyIsRSA` tells whether the loaded private key is an RSA
key; `fetchMetadata` is the outcome of fetching IdP metadata from a URL; `Serve` is the
error the listener returns, `none` while it keeps serving. -/
structure World where
  LoadX509KeyPair : String → String → Option Err
  ParseCertificate : Option Err
  keyIsRSA : Bool
  urlParse : String → Option Err
  ReadFile : String → Except Err Body
  Unmarshal : Body → Option Err
  fetchMetadata : String → Option Err
  forwardNew : Option Err
  roundrobinNew : Option Err
  bufferNew : Option Err
  Serve : Option Err

/-- The error of `samlsp.New(opts)` (crewjam/saml): the one step of it that can fail is
fetching the IdP metadata from `opts.IDPMetadataURL`; with no such URL it returns no
error. -/
def samlsp.New (w : World) (IDPMetadataURL : Option String) : Option Err :=
  match IDPMetadataURL with
  | none => none
  | some u => w.fetchMetadata u

/-- The error of `RoundRobin.UpsertServer(u, options...)` (vulcand/oxy): a nil URL is an
error, and so is the first option that fails; otherwise there is none. -/
def roundrobin.UpsertServer (u : Option String) (options : List (Option Err)) : Option Err :=
  match u with
  | none => some "server URL can't be nil"
  | some _ => options.findSome? id

/-- Where a run stands: still running with a value, exited with a status, stopped by a
panic, or serving requests. -/
inductive Status (α : Type) where
  | running (a : α)
  | exited (code : Nat)
  | panicked
  | serving
deriving DecidableEq, Repr

/-- A run of the process: the steps taken so far and where it stands. -/
structure Run (α : Type) where
  trace : List Event
  status : Status α
deriving DecidableEq, Repr

/-- Sequencing: the second part runs only if the first is still running. -/
def Run.bind {α β : Type} (x : Run α) (f : α → Run β) : Run β :=
  match x.status with
  | Status.running a => { trace := x.trace ++ (f a).trace, status := (f a).status }
  | Status.exited c => { trace := x.trace, status := Status.exited c }
  | Status.panicked => { trace := x.trace, status := Status.panicked }
  | Status.serving => { trace := x.trace, status := Status.serving }

instance : Monad Run where
  pure a := { trace := [], status := Status.running a }
  bind := Run.bind

/-- A call that reaches outside the program and returns `r`. -/
def call {α : Type} (e : Event) (r : α) : Run α :=
  { trace := [e], status := Status.running r }

/-- Logrus `Fatal`: writes the log entry, then exits the process with status 1. -/
def log.Fatal (fields : List (String × String)) (args : List String) : Run Unit :=
  { trace := [Event.Fatal fields args], status := Status.exited 1 }

/-- Go `os.Exit`: ends the process with the given status. -/
def os.Exit {α : Type} (code : Nat) : Run α :=
  { trace := [Event.Exit code], status := Status.exited code }

/-- A failed type assertion: the process panics. -/
def panic {α : Type} : Run α :=
  { trace := [Event.Panic], status := Status.panicked }

/-- The listener accepted its address and serves requests without returning. -/
def serve {α : Type} : Run α :=
  { trace := [], status := Status.serving }

/-- The function `readIdpMetadata` (main.go:37-52): returns the metadata (`true` for a non-nil pointer)
and the error. -/
def readIdpMetadata (w : World) (path : String) : Run (Bool × Option Err) := do
  let r ← call (Event.ReadFile path) (w.ReadFile path)
  match r with
  | Except.error err =>
    log.Fatal [("path", path)] [err]
    return (false, some err)
  | Except.ok data =>
    let err ← call Event.Unmarshal (w.Unmarshal data)
    match err with
    | some err =>
      log.Fatal [] [err]
      return (false, some err)
    | none => return (true, none)

/-- The listener choice of main.go:156-160. -/
def listener (C : Config) : Listener :=
  if C.HttpsKey = "" ∨ C.HttpsCertificate = "" then Listener.ListenAndServe
  else Listener.ListenAndServeTLS C.HttpsCertificate C.HttpsKey

/-- Startup after the flags are parsed (main.go:90-160).  The logging set-up of lines
66-72 calls nothing that can fail (`ParseLevel("info")` succeeds) and the statistics
goroutine of lines 74-88 takes no part in startup; both are left out.  `samlsp.New` is
called with the parsed metadata and no metadata URL (main.go:106-111), `UpsertServer`
with the parsed target URL and no option (main.go:136); the error of either is
dropped. -/
def startup (C : Config) (w : World) : Run Unit := do
  let err ← call (Event.LoadX509KeyPair C.ServiceCertificate C.ServiceKey)
    (w.LoadX509KeyPair C.ServiceCertificate C.ServiceKey)
  if let some err := err then
    log.Fatal [] ["service-key", err]
  let err ← call Event.ParseCertificate w.ParseCertificate
  if let some err := err then
    log.Fatal [] ["service-certificate", err]
  let err ← call (Event.urlParse C.ServiceRootURL) (w.urlParse C.ServiceRootURL)
  if let some err := err then
    log.Fatal [] [err]
  let _idp ← readIdpMetadata w C.IdpMetadata
  if !w.keyIsRSA then
    panic
  let _ ← call Event.samlspNew (samlsp.New w none)
  let err ← call Event.forwardNew w.forwardNew
  if let some err := err then
    log.Fatal [] [err]
  let err ← call Event.roundrobinNew w.roundrobinNew
  if let some err := err then
    log.Fatal [] [err]
  let err ← call (Event.bufferNew "IsNetworkError() && Attempts() < 3") w.bufferNew
  if let some err := err then
    log.Fatal [] [err]
  let err ← call (Event.urlParse C.Target) (w.urlParse C.Target)
  if let some err := err then
    log.Fatal [] [err]
  let _ ← call (Event.UpsertServer C.Target) (roundrobin.UpsertServer (some C.Target) [])
  let router := goji.NewMux
  let router := router.Handle (pat.New "/saml/*") Handler.samlSP
  let _ ← call (Event.Handle "/saml/*" Handler.samlSP) ()
  let router := router.Handle (pat.New "/*") (Handler.RequireAccount Handler.buffer)
  let _ ← call (Event.Handle "/*" (Handler.RequireAccount Handler.buffer)) ()
  let _ ← call (Event.Listen (listener C) router) ()
  match w.Serve with
  | none => serve
  | some err => log.Fatal [] [err]

/-- Whether every fallible step of startup before the listener succeeds in the given
surroundings: key pair, certificate, root URL, metadata file and its unmarshalling,
the RSA key, the two calls whose error is dropped, the three proxy layers and the
target URL. -/
def StartupOK (C : Config) (w : World) : Bool :=
  (w.LoadX509KeyPair C.ServiceCertificate C.ServiceKey).isNone
    && w.ParseCertificate.isNone
    && (w.urlParse C.ServiceRootURL).isNone
    && (match w.ReadFile C.IdpMetadata with
        | Except.ok data => (w.Unmarshal data).isNone
        | Except.error _ => false)
    && w.keyIsRSA
    && (samlsp.New w none).isNone
    && w.forwardNew.isNone
    && w.roundrobinNew.isNone
    && w.bufferNew.isNone
    && (w.urlParse C.Target).isNone
    && (roundrobin.UpsertServer (some C.Target) []).isNone

/-- The program (main.go:54-160): define the flags, parse the command line, start up. -/
def main (arguments : List String) (w : World) : Run Unit :=
  match flags.Parse arguments with
  | Except.error code => os.Exit code
  | Except.ok f => startup f.config w

/-! ## Sequences of selections and of requests -/

/-- The targets picked by `n` selections in a row, with no pool mutation in between. -/
def RoundRobin.selections : Nat → RoundRobin → List String
  | 0, _ => []
  | n + 1, r =>
    match r.NextServer with
    | none => []
    | some (u, r') => u :: RoundRobin.selections n r'

/-- Serves the requests one after the other through the buffer; the proxy state after the
last one. -/
def serveAll (t : Transport) : List Request → ProxyState → Option ProxyState
  | [], s => some s
  | r :: rs, s =>
    match buffer.ServeHTTP t r s with
    | none => none
    | some (_, s') => serveAll t rs s'

/-! ## Sample surroundings -/

/-- A middleware for which exactly the session cookie "valid" is a valid session. -/
def sampleMiddleware : Middleware :=
  { ServeHTTP := fun _ => { code := 200, location := none, body := [] }
    IsAuthorized := fun r => r.cookie == some "valid"
    loginURL := fun r => "https://idp.example/sso?RelayState=" ++ r.path }

/-- A backend that answers every dispatch with 200 and the body it was sent. -/
def echoTransport : Transport :=
  fun _ a => RoundTrip.response { code := 200, location := none, body := a.body }

/-- A backend that refuses every connection. -/
def downTransport : Transport :=
  fun _ _ => RoundTrip.netError false

/-- A backend whose first two connections fail (a timeout, then a refusal) and which
answers 200 from the third dispatch on. -/
def flakyTransport : Transport :=
  fun n _ =>
    if n = 0 then RoundTrip.netError true
    else if n = 1 then RoundTrip.netError false
    else RoundTrip.response { code := 200, location := none, body := [111, 107] }

/-- A backend that itself answers 502 to the first dispatch and 200 afterwards. -/
def badGatewayTransport : Transport :=
  fun n _ =>
    if n = 0 then RoundTrip.response { code := 502, location := none, body := [98, 97, 100] }
    else RoundTrip.response { code := 200, location := none, body := [111, 107] }

/-- The proxy state right after startup with the target "http://backend:9000". -/
def startState : ProxyState :=
  { lb := startLB "http://backend:9000", sent := [] }

/-- Surroundings in which every call of startup succeeds and the listener keeps
serving. -/
def fineWorld : World :=
  { LoadX509KeyPair := fun _ _ => none
    ParseCertificate := none
    keyIsRSA := true
    urlParse := fun _ => none
    ReadFile := fun _ => Except.ok [60, 47, 62]
    Unmarshal := fun _ => none
    fetchMetadata := fun _ => none
    forwardNew := none
    roundrobinNew := none
    bufferNew := none
    Serve := none }

/-- A configuration as the flags can produce it. -/
def sampleConfig : Config :=
  { Target := "http://backend:9000"
    ServiceRootURL := "https://sp.example"
    ServiceCertificate := "sp.crt"
    ServiceKey := "sp.key"
    IdpMetadata := "idp.xml"
    HttpsCertificate := ""
    HttpsKey := "" }

/-- A configuration with both HTTPS options set. -/
def tlsConfig : Config :=
  { sampleConfig with HttpsCertificate := "tls.crt", HttpsKey := "tls.key" }

/-! # Theorems -/

/-! ## Routing -/

/-- The two patterns of `main`, compiled. -/
theorem pat_New_saml : pat.New "/saml/*" = { raw := "/saml/*", literal := "/saml/", wildcard := true } := by
  decide

/-- The catch-all pattern of `main`, compiled: a wildcard on the literal "/". -/
theorem pat_New_all : pat.New "/*" = { raw := "/*", literal := "/", wildcard := true } := by
  decide

/-- The route table of `main` as a decision on the path. -/
theorem router_route (p : String) :
    router.route p =
      if HasPrefix p "/saml/" then some Handler.samlSP
      else if HasPrefix p "/" then some (Handler.RequireAccount Handler.buffer)
      else none := by
  simp only [router, Mux.route, Mux.Handle, goji.NewMux, pat_New_saml, pat_New_all,
    List.nil_append, List.cons_append, List.find?, Pattern.Match]
  by_cases h1 : HasPrefix p "/saml/" = true
  · simp [h1]
  · by_cases h2 : HasPrefix p "/" = true
    · simp [h1, h2]
    · simp [h1, h2]

/-- C2, counterexample: the empty path (the path of a request whose target is an absolute
URL without a path, or of a CONNECT request) is not under "/saml/" and still is not
dispatched to the gate-wrapped proxy: no route matches it. -/
theorem C2_counterexample :
    HasPrefix "" "/saml/" = false ∧
      router.route "" ≠ some (Handler.RequireAccount Handler.buffer) ∧
      router.route "" = none := by
  decide

/-- C2, amended: a path is dispatched to the SAML handler itself exactly when it is under
"/saml/"; every other path that starts with "/" (among them "/saml" and "/samlx") is
dispatched to the gate-wrapped proxy; a path that does not start with "/" matches no
route; no path is dispatched to the unwrapped proxy. -/
theorem C2_router_dispatch (p : String) :
    (router.route p = some Handler.samlSP ↔ HasPrefix p "/saml/" = true) ∧
      (HasPrefix p "/saml/" = false → HasPrefix p "/" = true →
        router.route p = some (Handler.RequireAccount Handler.buffer)) ∧
      (HasPrefix p "/" = false → router.route p = none) ∧
      router.route p ≠ some Handler.buffer ∧
      router.route "/saml" = some (Handler.RequireAccount Handler.buffer) ∧
      router.route "/samlx" = some (Handler.RequireAccount Handler.buffer) := by
  have hp : HasPrefix p "/saml/" = true → HasPrefix p "/" = true := by
    unfold HasPrefix
    intro h
    have h1 : ("/".data).isPrefixOf "/saml/".data = true := by decide
    rw [List.isPrefixOf_iff_prefix] at h h1 ⊢
    exact h1.trans h
  rw [router_route]
  refine ⟨?_, ?_, ?_, ?_, by decide, by decide⟩
  · by_cases h1 : HasPrefix p "/saml/" = true
    · simp [h1]
    · by_cases h2 : HasPrefix p "/" = true <;> simp [h1, h2]
  · intro h1 h2
    simp [h1, h2]
  · intro h2
    have h1 : HasPrefix p "/saml/" = false := by
      cases h : HasPrefix p "/saml/"
      · rfl
      · rw [hp h] at h2
        cases h2
    simp [h1, h2]
  · by_cases h1 : HasPrefix p "/saml/" = true
    · simp [h1]
    · by_cases h2 : HasPrefix p "/" = true <;> simp [h1, h2]

/-- C2, witness: the amended dispatch at the path "/index.html". -/
theorem C2_router_dispatch_witness :
    HasPrefix "/index.html" "/saml/" = false ∧ HasPrefix "/index.html" "/" = true ∧
      router.route "/index.html" = some (Handler.RequireAccount Handler.buffer) :=
  ⟨by decide, by decide, (C2_router_dispatch "/index.html").2.1 (by decide) (by decide)⟩

/-! ## Session gate -/

/-- C1, counterexample: a request with the empty path and no session cookie is not under
"/saml/" and carries no valid session, and the gateway answers 404, not a redirect. -/
theorem C1_counterexample :
    HasPrefix "" "/saml/" = false ∧
      sampleMiddleware.IsAuthorized { path := "", cookie := none, body := [] } = false ∧
      router.ServeHTTP sampleMiddleware echoTransport { path := "", cookie := none, body := [] }
        startState
        = some ({ code := 404, location := none,
                  body := [52, 48, 52, 32, 112, 97, 103, 101, 32, 110, 111, 116, 32, 102, 111, 117,
                           110, 100, 10] }, startState) := by
  decide

/-- C1, amended: a request without a valid session never reaches a backend, whatever its
path (the proxy state, with its log of dispatches, is unchanged); if its path starts
with "/" and is not under "/saml/" the answer is the redirect to the login URL; and
no path is routed to the proxy without the gate. -/
theorem C1_gate_without_session (m : Middleware) (t : Transport) (r : Request) (s : ProxyState)
    (ha : m.IsAuthorized r = false) :
    (∃ resp, router.ServeHTTP m t r s = some (resp, s)) ∧
      (HasPrefix r.path "/saml/" = false → HasPrefix r.path "/" = true →
        router.ServeHTTP m t r s
          = some ({ code := 302, location := some (m.loginURL r), body := [] }, s)) ∧
      (∀ p, router.route p ≠ some Handler.buffer) := by
  refine ⟨?_, ?_, ?_⟩
  · unfold Mux.ServeHTTP
    rw [router_route]
    by_cases h1 : HasPrefix r.path "/saml/" = true
    · simp [h1, Handler.ServeHTTP]
    · by_cases h2 : HasPrefix r.path "/" = true
      · simp [h1, h2, Handler.ServeHTTP, Middleware.RequireAccount, ha]
      · simp [h1, h2]
  · intro h1 h2
    unfold Mux.ServeHTTP
    rw [router_route]
    simp [h1, h2, Handler.ServeHTTP, Middleware.RequireAccount, ha]
  · intro p
    rw [router_route]
    by_cases h1 : HasPrefix p "/saml/" = true
    · simp [h1]
    · by_cases h2 : HasPrefix p "/" = true <;> simp [h1, h2]

/-- C1, witness: "/app" without a cookie is redirected and nothing is dispatched. -/
theorem C1_gate_without_session_witness :
    router.ServeHTTP sampleMiddleware echoTransport { path := "/app", cookie := none, body := [1] }
        startState
      = some ({ code := 302, location := some "https://idp.example/sso?RelayState=/app",
                body := [] }, startState) :=
  (C1_gate_without_session sampleMiddleware echoTransport
    { path := "/app", cookie := none, body := [1] } startState (by decide)).2.1
    (by decide) (by decide)

/-! ## Retrying forward -/

/-- A non-empty pool always yields a target of the pool and keeps the pool. -/
theorem NextServer_of_ne_nil (r : RoundRobin) (h : r.servers ≠ []) :
    ∃ u lb, r.NextServer = some (u, lb) ∧ lb.servers = r.servers ∧ u ∈ r.servers := by
  unfold RoundRobin.NextServer
  cases hs : r.servers with
  | nil => exact absurd hs h
  | cons x xs =>
    refine ⟨_, _, rfl, rfl, ?_⟩
    have hlt : r.index % (x :: xs).length < (x :: xs).length :=
      Nat.mod_lt _ (by simp)
    rw [List.getD_eq_getElem _ _ hlt]
    exact List.getElem_mem _

/-- One pass through load balancer and forwarder when the dispatch ends in a network
failure: one request is dispatched and the answer is the gateway's own 502 or 504. -/
theorem roundrobin_ServeHTTP_netError (t : Transport) (path : String) (body : Reader)
    (s : ProxyState) (hne : s.lb.servers ≠ [])
    (hfail : ∀ a, ∃ b, t s.sent.length a = RoundTrip.netError b) :
    ∃ u lb code, roundrobin.ServeHTTP t path body s
        = ({ code := code, location := none, body := StatusText code }, body.readAll.2,
            { lb := lb, sent := s.sent ++ [{ target := u, path := path, body := body.readAll.1 }] }) ∧
      (code = 502 ∨ code = 504) ∧ lb.servers = s.lb.servers ∧ u ∈ s.lb.servers := by
  obtain ⟨u, lb, hn, hlb, hu⟩ := NextServer_of_ne_nil s.lb hne
  obtain ⟨b, hb⟩ := hfail { target := u, path := path, body := body.readAll.1 }
  cases b with
  | false =>
    refine ⟨u, lb, 502, ?_, Or.inl rfl, hlb, hu⟩
    simp [roundrobin.ServeHTTP, hn, forward.ServeHTTP, hb]
  | true =>
    refine ⟨u, lb, 504, ?_, Or.inr rfl, hlb, hu⟩
    simp [roundrobin.ServeHTTP, hn, forward.ServeHTTP, hb]

/-- One pass through load balancer and forwarder when the backend answers: one request is
dispatched and the answer is the response of the backend. -/
theorem roundrobin_ServeHTTP_response (t : Transport) (path : String) (body : Reader)
    (s : ProxyState) (r : Response) (hne : s.lb.servers ≠ [])
    (hresp : ∀ a, t s.sent.length a = RoundTrip.response r) :
    ∃ u lb, roundrobin.ServeHTTP t path body s
        = (r, body.readAll.2,
            { lb := lb, sent := s.sent ++ [{ target := u, path := path, body := body.readAll.1 }] }) ∧
      lb.servers = s.lb.servers ∧ u ∈ s.lb.servers := by
  obtain ⟨u, lb, hn, hlb, hu⟩ := NextServer_of_ne_nil s.lb hne
  refine ⟨u, lb, ?_, hlb, hu⟩
  simp [roundrobin.ServeHTTP, hn, forward.ServeHTTP, hresp]

/-- A rewound stream reads as the whole buffered body. -/
theorem readAll_Seek (b : Reader) : b.readAll.2.Seek.readAll.1 = b.data := by
  simp [Reader.readAll, Reader.Seek]

/-- C3: with a pool that is not empty, if every dispatch ends in a network failure, the
retrying forward returns, has dispatched exactly three requests, and answers the client
with the gateway's own 502 Bad Gateway or 504 Gateway Timeout. -/
theorem C3_three_attempts (t : Transport) (req : Request) (s : ProxyState)
    (hne : s.lb.servers ≠ [])
    (hfail : ∀ n a, ∃ b, t n a = RoundTrip.netError b) :
    ∃ resp s', buffer.ServeHTTP t req s = some (resp, s') ∧
      (∃ a1 a2 a3, s'.sent = s.sent ++ [a1, a2, a3]) ∧
      s'.sent.length = s.sent.length + 3 ∧
      (resp.code = 502 ∨ resp.code = 504) ∧ resp.body = StatusText resp.code := by
  obtain ⟨u1, lb1, c1, h1, hc1, hl1, -⟩ :=
    roundrobin_ServeHTTP_netError t req.path ⟨req.body, 0⟩ s hne (fun a => hfail _ a)
  have hne1 : lb1.servers ≠ [] := by rw [hl1]; exact hne
  obtain ⟨u2, lb2, c2, h2, hc2, hl2, -⟩ :=
    roundrobin_ServeHTTP_netError t req.path (Reader.readAll ⟨req.body, 0⟩).2.Seek
      ⟨lb1, s.sent ++ [⟨u1, req.path, (Reader.readAll ⟨req.body, 0⟩).1⟩]⟩ hne1
      (fun a => hfail _ a)
  have hne2 : lb2.servers ≠ [] := by rw [hl2]; exact hne1
  obtain ⟨u3, lb3, c3, h3, hc3, -, -⟩ :=
    roundrobin_ServeHTTP_netError t req.path
      (Reader.readAll (Reader.readAll ⟨req.body, 0⟩).2.Seek).2.Seek
      ⟨lb2, (s.sent ++ [⟨u1, req.path, (Reader.readAll ⟨req.body, 0⟩).1⟩]) ++
        [⟨u2, req.path, (Reader.readAll (Reader.readAll ⟨req.body, 0⟩).2.Seek).1⟩]⟩
      hne2 (fun a => hfail _ a)
  have hp1 : retryPredicate { attempt := 1, responseCode := c1 } = true := by
    rcases hc1 with h | h <;> simp [retryPredicate, IsNetworkError, Attempts, h]
  have hp2 : retryPredicate { attempt := 2, responseCode := c2 } = true := by
    rcases hc2 with h | h <;> simp [retryPredicate, IsNetworkError, Attempts, h]
  have hp3 : retryPredicate { attempt := 3, responseCode := c3 } = false := by
    simp [retryPredicate, Attempts]
  have key : buffer.ServeHTTP t req s
      = some (⟨c3, none, StatusText c3⟩,
          ⟨lb3, s.sent ++ [⟨u1, req.path, (Reader.readAll ⟨req.body, 0⟩).1⟩,
            ⟨u2, req.path, (Reader.readAll (Reader.readAll ⟨req.body, 0⟩).2.Seek).1⟩,
            ⟨u3, req.path,
              (Reader.readAll (Reader.readAll (Reader.readAll ⟨req.body, 0⟩).2.Seek).2.Seek).1⟩]⟩) := by
    simp only [buffer.ServeHTTP, DefaultMaxRetryAttempts, buffer.loop, h1, h2, h3, hp1, hp2, hp3]
    simp
  exact ⟨_, _, key, ⟨_, _, _, rfl⟩, by simp, hc3, rfl⟩

/-- C3, witness: a backend that refuses every connection, behind the pool of startup. -/
theorem C3_three_attempts_witness :
    ∃ resp s', buffer.ServeHTTP downTransport { path := "/app", cookie := some "valid", body := [7] }
        startState = some (resp, s') ∧
      (∃ a1 a2 a3, s'.sent = startState.sent ++ [a1, a2, a3]) ∧
      s'.sent.length = startState.sent.length + 3 ∧
      (resp.code = 502 ∨ resp.code = 504) ∧ resp.body = StatusText resp.code :=
  C3_three_attempts downTransport { path := "/app", cookie := some "valid", body := [7] }
    startState (by decide) (fun _ _ => ⟨false, rfl⟩)

/-- C4, counterexample: the backend itself answers 502 to the first dispatch; the forward
makes a second attempt and the client gets the 200 of that attempt, not the 502. -/
theorem C4_counterexample :
    badGatewayTransport 0 { target := "http://backend:9000", path := "/app", body := [7] }
        = RoundTrip.response { code := 502, location := none, body := [98, 97, 100] } ∧
      buffer.ServeHTTP badGatewayTransport { path := "/app", cookie := some "valid", body := [7] }
        startState
      = some ({ code := 200, location := none, body := [111, 107] },
          { lb := startLB "http://backend:9000",
            sent := [{ target := "http://backend:9000", path := "/app", body := [7] },
                     { target := "http://backend:9000", path := "/app", body := [7] }] }) := by
  decide

/-- C4, amended: at any attempt, a response of the backend whose status is neither 502 nor
504 ends the loop: it is returned unchanged after that one dispatch; the same holds for
the first attempt of a request; a backend response with status 502 or 504 on an attempt
before the third is taken for a network error and the request is replayed. -/
theorem C4_backend_response (t : Transport) (req : Request) (fuel attempt : Nat) (body : Reader)
    (s : ProxyState) (r : Response) (hne : s.lb.servers ≠ [])
    (hresp : ∀ a, t s.sent.length a = RoundTrip.response r) :
    (r.code ≠ 502 → r.code ≠ 504 →
      (∃ s', buffer.loop t req.path (fuel + 1) attempt body s = some (r, s') ∧
        s'.sent.length = s.sent.length + 1) ∧
      (∃ s', buffer.ServeHTTP t req s = some (r, s') ∧ s'.sent.length = s.sent.length + 1)) ∧
    (r.code = 502 ∨ r.code = 504 → attempt < 3 →
      ∃ s', s'.sent.length = s.sent.length + 1 ∧
        buffer.loop t req.path (fuel + 1) attempt body s
          = buffer.loop t req.path fuel (attempt + 1) body.readAll.2.Seek s') := by
  constructor
  · intro h502 h504
    have hp : ∀ n, retryPredicate { attempt := n, responseCode := r.code } = false := by
      intro n
      simp [retryPredicate, IsNetworkError, h502, h504]
    constructor
    · obtain ⟨u, lb, h, -, -⟩ := roundrobin_ServeHTTP_response t req.path body s r hne hresp
      refine ⟨⟨lb, s.sent ++ [⟨u, req.path, body.readAll.1⟩]⟩, ?_, ?_⟩
      · simp only [buffer.loop, h, hp]
        simp
      · simp
    · obtain ⟨u, lb, h, -, -⟩ :=
        roundrobin_ServeHTTP_response t req.path ⟨req.body, 0⟩ s r hne hresp
      refine ⟨⟨lb, s.sent ++ [⟨u, req.path, (Reader.readAll ⟨req.body, 0⟩).1⟩]⟩, ?_, ?_⟩
      · simp only [buffer.ServeHTTP, DefaultMaxRetryAttempts, buffer.loop, h, hp]
        simp
      · simp
  · intro hc ha
    obtain ⟨u, lb, h, -, -⟩ := roundrobin_ServeHTTP_response t req.path body s r hne hresp
    have hp : retryPredicate { attempt := attempt, responseCode := r.code } = true := by
      rcases hc with h | h <;> simp [retryPredicate, IsNetworkError, Attempts, h, ha]
    have hle : ¬ attempt > DefaultMaxRetryAttempts := by
      unfold DefaultMaxRetryAttempts
      omega
    refine ⟨⟨lb, s.sent ++ [⟨u, req.path, body.readAll.1⟩]⟩, ?_, ?_⟩
    · simp
    · simp only [buffer.loop, h, hp]
      simp [hle]

/-- C4, witness: a 404 of the backend is passed through after one dispatch. -/
theorem C4_backend_response_witness :
    ∃ s', buffer.ServeHTTP (fun _ _ => RoundTrip.response { code := 404, location := none, body := [] })
        { path := "/app", cookie := some "valid", body := [7] } startState
      = some ({ code := 404, location := none, body := [] }, s') ∧
      s'.sent.length = startState.sent.length + 1 :=
  ((C4_backend_response (fun _ _ => RoundTrip.response { code := 404, location := none, body := [] })
    { path := "/app", cookie := some "valid", body := [7] } 0 1 ⟨[7], 0⟩ startState
    { code := 404, location := none, body := [] } (by decide) (fun _ => rfl)).1
    (by decide) (by decide)).2

/-- C5: with a pool that is not empty, if the first two dispatches end in a network
failure and the third is answered by the backend, the retrying forward returns that
answer after exactly three dispatches, each of which carried the request body. -/
theorem C5_replayed_body (t : Transport) (req : Request) (s : ProxyState) (r : Response)
    (hne : s.lb.servers ≠ [])
    (hfail1 : ∀ a, ∃ b, t s.sent.length a = RoundTrip.netError b)
    (hfail2 : ∀ a, ∃ b, t (s.sent.length + 1) a = RoundTrip.netError b)
    (hresp : ∀ a, t (s.sent.length + 2) a = RoundTrip.response r) :
    ∃ s' a1 a2 a3, buffer.ServeHTTP t req s = some (r, s') ∧
      s'.sent = s.sent ++ [a1, a2, a3] ∧
      a1.body = req.body ∧ a2.body = req.body ∧ a3.body = req.body := by
  obtain ⟨u1, lb1, c1, h1, hc1, hl1, -⟩ :=
    roundrobin_ServeHTTP_netError t req.path ⟨req.body, 0⟩ s hne hfail1
  have hne1 : lb1.servers ≠ [] := by rw [hl1]; exact hne
  obtain ⟨u2, lb2, c2, h2, hc2, hl2, -⟩ :=
    roundrobin_ServeHTTP_netError t req.path (Reader.readAll ⟨req.body, 0⟩).2.Seek
      ⟨lb1, s.sent ++ [⟨u1, req.path, (Reader.readAll ⟨req.body, 0⟩).1⟩]⟩ hne1
      (fun a => by simpa using hfail2 a)
  have hne2 : lb2.servers ≠ [] := by rw [hl2]; exact hne1
  obtain ⟨u3, lb3, h3, -, -⟩ :=
    roundrobin_ServeHTTP_response t req.path
      (Reader.readAll (Reader.readAll ⟨req.body, 0⟩).2.Seek).2.Seek
      ⟨lb2, (s.sent ++ [⟨u1, req.path, (Reader.readAll ⟨req.body, 0⟩).1⟩]) ++
        [⟨u2, req.path, (Reader.readAll (Reader.readAll ⟨req.body, 0⟩).2.Seek).1⟩]⟩
      r hne2 (fun a => by simpa using hresp a)
  have hp1 : retryPredicate { attempt := 1, responseCode := c1 } = true := by
    rcases hc1 with h | h <;> simp [retryPredicate, IsNetworkError, Attempts, h]
  have hp2 : retryPredicate { attempt := 2, responseCode := c2 } = true := by
    rcases hc2 with h | h <;> simp [retryPredicate, IsNetworkError, Attempts, h]
  have hp3 : retryPredicate { attempt := 3, responseCode := r.code } = false := by
    simp [retryPredicate, Attempts]
  have key : buffer.ServeHTTP t req s
      = some (r,
          ⟨lb3, s.sent ++ [⟨u1, req.path, (Reader.readAll ⟨req.body, 0⟩).1⟩,
            ⟨u2, req.path, (Reader.readAll (Reader.readAll ⟨req.body, 0⟩).2.Seek).1⟩,
            ⟨u3, req.path,
              (Reader.readAll (Reader.readAll (Reader.readAll ⟨req.body, 0⟩).2.Seek).2.Seek).1⟩]⟩) := by
    simp only [buffer.ServeHTTP, DefaultMaxRetryAttempts, buffer.loop, h1, h2, h3, hp1, hp2, hp3]
    simp
  refine ⟨_, _, _, _, key, rfl, ?_, ?_, ?_⟩
  · simp [Reader.readAll]
  · simp [Reader.readAll, Reader.Seek]
  · simp [Reader.readAll, Reader.Seek]

/-- C5, witness: a timeout, a refused connection, then an echoing backend. -/
theorem C5_replayed_body_witness :
    ∃ s' a1 a2 a3,
      buffer.ServeHTTP flakyTransport { path := "/app", cookie := some "valid", body := [7, 8, 9] }
        startState = some ({ code := 200, location := none, body := [111, 107] }, s') ∧
      s'.sent = startState.sent ++ [a1, a2, a3] ∧
      a1.body = [7, 8, 9] ∧ a2.body = [7, 8, 9] ∧ a3.body = [7, 8, 9] :=
  C5_replayed_body flakyTransport { path := "/app", cookie := some "valid", body := [7, 8, 9] }
    startState { code := 200, location := none, body := [111, 107] } (by decide)
    (fun _ => ⟨true, rfl⟩) (fun _ => ⟨false, rfl⟩) (fun _ => rfl)

/-! ## Startup -/

/-- The listener, when startup reaches it, is started in the mode `listener` chooses and
with the router of `main`. -/
theorem startup_Listen (C : Config) (w : World) (l : Listener) (h : Mux)
    (hm : Event.Listen l h ∈ (startup C w).trace) : l = listener C ∧ h = router := by
  revert hm
  unfold startup readIdpMetadata
  simp only [bind, Run.bind, call, log.Fatal, panic, pure, serve]
  cases w.LoadX509KeyPair C.ServiceCertificate C.ServiceKey <;>
  cases w.ParseCertificate <;>
  cases w.urlParse C.ServiceRootURL <;>
  cases w.ReadFile C.IdpMetadata <;> simp
  rename_i data
  cases w.Unmarshal data <;> cases w.keyIsRSA <;> simp
  cases w.forwardNew <;> cases w.roundrobinNew <;> cases w.bufferNew <;> cases w.urlParse C.Target <;>
    cases w.Serve <;> simp [router, eq_comm]

/-- C6: each listed startup error ends the process at its step: the trace stops with the
fatal log entry carrying the cause, the exit status is 1 and no later step is in the
trace.  In order: the key pair fails to load; the certificate fails to parse; the root
URL fails to parse; the metadata file cannot be read; the metadata cannot be
unmarshalled; the listener returns an error.  Last: `readIdpMetadata`, when it returns
to `main`, returns no error. -/
theorem C6_startup_errors_fatal (C : Config) (w : World) :
    (∀ e, w.LoadX509KeyPair C.ServiceCertificate C.ServiceKey = some e →
      startup C w =
        { trace := [Event.LoadX509KeyPair C.ServiceCertificate C.ServiceKey,
                    Event.Fatal [] ["service-key", e]],
          status := Status.exited 1 }) ∧
    (∀ e, w.LoadX509KeyPair C.ServiceCertificate C.ServiceKey = none →
      w.ParseCertificate = some e →
      startup C w =
        { trace := [Event.LoadX509KeyPair C.ServiceCertificate C.ServiceKey,
                    Event.ParseCertificate,
                    Event.Fatal [] ["service-certificate", e]],
          status := Status.exited 1 }) ∧
    (∀ e, w.LoadX509KeyPair C.ServiceCertificate C.ServiceKey = none →
      w.ParseCertificate = none → w.urlParse C.ServiceRootURL = some e →
      startup C w =
        { trace := [Event.LoadX509KeyPair C.ServiceCertificate C.ServiceKey,
                    Event.ParseCertificate,
                    Event.urlParse C.ServiceRootURL,
                    Event.Fatal [] [e]],
          status := Status.exited 1 }) ∧
    (∀ e, w.LoadX509KeyPair C.ServiceCertificate C.ServiceKey = none →
      w.ParseCertificate = none → w.urlParse C.ServiceRootURL = none →
      w.ReadFile C.IdpMetadata = Except.error e →
      startup C w =
        { trace := [Event.LoadX509KeyPair C.ServiceCertificate C.ServiceKey,
                    Event.ParseCertificate,
                    Event.urlParse C.ServiceRootURL,
                    Event.ReadFile C.IdpMetadata,
                    Event.Fatal [("path", C.IdpMetadata)] [e]],
          status := Status.exited 1 }) ∧
    (∀ data e, w.LoadX509KeyPair C.ServiceCertificate C.ServiceKey = none →
      w.ParseCertificate = none → w.urlParse C.ServiceRootURL = none →
      w.ReadFile C.IdpMetadata = Except.ok data → w.Unmarshal data = some e →
      startup C w =
        { trace := [Event.LoadX509KeyPair C.ServiceCertificate C.ServiceKey,
                    Event.ParseCertificate,
                    Event.urlParse C.ServiceRootURL,
                    Event.ReadFile C.IdpMetadata,
                    Event.Unmarshal,
                    Event.Fatal [] [e]],
          status := Status.exited 1 }) ∧
    (∀ e l h, w.Serve = some e → Event.Listen l h ∈ (startup C w).trace →
      (∃ before, (startup C w).trace = before ++ [Event.Listen l h, Event.Fatal [] [e]]) ∧
        (startup C w).status = Status.exited 1) ∧
    (∀ path md err, (readIdpMetadata w path).status = Status.running (md, err) → err = none) := by
  refine ⟨?_, ?_, ?_, ?_, ?_, ?_, ?_⟩
  · intro e h1
    simp [startup, bind, Run.bind, call, log.Fatal, h1]
  · intro e h1 h2
    simp [startup, bind, Run.bind, call, log.Fatal, pure, h1, h2]
  · intro e h1 h2 h3
    simp [startup, bind, Run.bind, call, log.Fatal, pure, h1, h2, h3]
  · intro e h1 h2 h3 h4
    simp [startup, readIdpMetadata, bind, Run.bind, call, log.Fatal, pure, h1, h2, h3, h4]
  · intro data e h1 h2 h3 h4 h5
    simp [startup, readIdpMetadata, bind, Run.bind, call, log.Fatal, pure, h1, h2, h3, h4, h5]
  · intro e l h hs
    unfold startup readIdpMetadata
    simp only [bind, Run.bind, call, log.Fatal, panic, pure, serve, hs]
    cases w.LoadX509KeyPair C.ServiceCertificate C.ServiceKey <;>
    cases w.ParseCertificate <;>
    cases w.urlParse C.ServiceRootURL <;>
    cases w.ReadFile C.IdpMetadata <;> simp
    rename_i data
    cases w.Unmarshal data <;> cases w.keyIsRSA <;> simp
    cases w.forwardNew <;> cases w.roundrobinNew <;> cases w.bufferNew <;>
      cases w.urlParse C.Target <;> simp
    rintro rfl rfl
    exact ⟨[Event.LoadX509KeyPair C.ServiceCertificate C.ServiceKey, Event.ParseCertificate,
      Event.urlParse C.ServiceRootURL, Event.ReadFile C.IdpMetadata, Event.Unmarshal,
      Event.samlspNew, Event.forwardNew, Event.roundrobinNew,
      Event.bufferNew "IsNetworkError() && Attempts() < 3", Event.urlParse C.Target,
      Event.UpsertServer C.Target, Event.Handle "/saml/*" Handler.samlSP,
      Event.Handle "/*" (Handler.RequireAccount Handler.buffer)], rfl⟩
  · intro path md err
    unfold readIdpMetadata
    simp only [bind, Run.bind, call, log.Fatal, pure]
    cases w.ReadFile path <;> simp
    rename_i data
    cases w.Unmarshal data <;> simp
    intro _ h
    exact h.symm

/-- C6, witness: an unreadable metadata file ends startup at the read. -/
theorem C6_startup_errors_fatal_witness :
    startup sampleConfig { fineWorld with ReadFile := fun _ => Except.error "no such file" } =
      { trace := [Event.LoadX509KeyPair "sp.crt" "sp.key",
                  Event.ParseCertificate,
                  Event.urlParse "https://sp.example",
                  Event.ReadFile "idp.xml",
                  Event.Fatal [("path", "idp.xml")] ["no such file"]],
        status := Status.exited 1 } :=
  (C6_startup_errors_fatal sampleConfig
    { fineWorld with ReadFile := fun _ => Except.error "no such file" }).2.2.2.1
    "no such file" rfl rfl rfl rfl

/-- The two calls whose error `main` drops cannot fail with the arguments `main` passes:
no metadata URL for `samlsp.New`, a parsed URL and no option for `UpsertServer`. -/
theorem dropped_errors_nil (C : Config) (w : World) :
    samlsp.New w none = none ∧ roundrobin.UpsertServer (some C.Target) [] = none :=
  ⟨rfl, rfl⟩

/-- When every fallible step succeeds, startup runs through to the listener: the trace is
the thirteen steps before it, the start of the listener in the chosen mode with the
router, and the fatal entry if the listener returns. -/
theorem startup_of_ok (C : Config) (w : World) (hok : StartupOK C w = true) :
    (startup C w).trace =
      [Event.LoadX509KeyPair C.ServiceCertificate C.ServiceKey, Event.ParseCertificate,
        Event.urlParse C.ServiceRootURL, Event.ReadFile C.IdpMetadata, Event.Unmarshal,
        Event.samlspNew, Event.forwardNew, Event.roundrobinNew,
        Event.bufferNew "IsNetworkError() && Attempts() < 3", Event.urlParse C.Target,
        Event.UpsertServer C.Target, Event.Handle "/saml/*" Handler.samlSP,
        Event.Handle "/*" (Handler.RequireAccount Handler.buffer),
        Event.Listen (listener C) router] ++
        (match w.Serve with
         | none => []
         | some e => [Event.Fatal [] [e]]) ∧
      (startup C w).status =
        (match w.Serve with
         | none => Status.serving
         | some _ => Status.exited 1) := by
  simp only [StartupOK, Bool.and_eq_true, Option.isNone_iff_eq_none] at hok
  obtain ⟨⟨⟨⟨⟨⟨⟨⟨⟨⟨h1, h2⟩, h3⟩, h4⟩, h5⟩, -⟩, h6⟩, h7⟩, h8⟩, h9⟩, -⟩ := hok
  unfold startup readIdpMetadata
  simp only [bind, Run.bind, call, log.Fatal, panic, pure, serve, h1, h2, h3, h5, h6, h7, h8, h9]
  cases hr : w.ReadFile C.IdpMetadata with
  | error e => rw [hr] at h4; cases h4
  | ok data =>
    rw [hr] at h4
    simp only [Option.isNone_iff_eq_none] at h4
    simp only [h4]
    cases w.Serve <;> simp [router]

/-- Startup registers a route or starts the listener only after every fallible step has
succeeded. -/
theorem ok_of_started (C : Config) (w : World) (e : Event)
    (he : (∃ p h, e = Event.Handle p h) ∨ ∃ l h, e = Event.Listen l h)
    (hm : e ∈ (startup C w).trace) : StartupOK C w = true := by
  revert hm
  unfold startup readIdpMetadata StartupOK
  simp only [bind, Run.bind, call, log.Fatal, panic, pure, serve, samlsp.New,
    roundrobin.UpsertServer, List.findSome?]
  rcases he with ⟨p, h, rfl⟩ | ⟨l, h, rfl⟩
  · cases w.LoadX509KeyPair C.ServiceCertificate C.ServiceKey <;>
    cases w.ParseCertificate <;>
    cases w.urlParse C.ServiceRootURL <;>
    cases w.ReadFile C.IdpMetadata <;> simp
    rename_i data
    cases w.Unmarshal data <;> cases w.keyIsRSA <;> simp
    cases w.forwardNew <;> cases w.roundrobinNew <;> cases w.bufferNew <;>
      cases w.urlParse C.Target <;> cases w.Serve <;> simp
  · cases w.LoadX509KeyPair C.ServiceCertificate C.ServiceKey <;>
    cases w.ParseCertificate <;>
    cases w.urlParse C.ServiceRootURL <;>
    cases w.ReadFile C.IdpMetadata <;> simp
    rename_i data
    cases w.Unmarshal data <;> cases w.keyIsRSA <;> simp
    cases w.forwardNew <;> cases w.roundrobinNew <;> cases w.bufferNew <;>
      cases w.urlParse C.Target <;> cases w.Serve <;> simp

/-- C7: the two calls whose error `main` drops return no error for the arguments `main`
passes, so no startup exists in which one of them fails and the process goes on; a
route is registered, and the listener is started, only if every fallible step of
startup succeeded, and then the listener is started. -/
theorem C7_no_degraded_startup (C : Config) (w : World) :
    samlsp.New w none = none ∧ roundrobin.UpsertServer (some C.Target) [] = none ∧
      (∀ l h, Event.Listen l h ∈ (startup C w).trace → StartupOK C w = true) ∧
      (∀ p h, Event.Handle p h ∈ (startup C w).trace → StartupOK C w = true) ∧
      (StartupOK C w = true → Event.Listen (listener C) router ∈ (startup C w).trace) := by
  refine ⟨rfl, rfl, ?_, ?_, ?_⟩
  · intro l h hm
    exact ok_of_started C w _ (Or.inr ⟨l, h, rfl⟩) hm
  · intro p h hm
    exact ok_of_started C w _ (Or.inl ⟨p, h, rfl⟩) hm
  · intro hok
    rw [(startup_of_ok C w hok).1]
    simp

/-- C7, witness: in surroundings where everything succeeds the listener is started, and
in surroundings where no URL parses it is not. -/
theorem C7_no_degraded_startup_witness :
    Event.Listen (listener sampleConfig) router ∈ (startup sampleConfig fineWorld).trace ∧
      StartupOK sampleConfig { fineWorld with urlParse := fun _ => some "parse error" } = false ∧
      Event.Listen (listener sampleConfig) router ∉
        (startup sampleConfig { fineWorld with urlParse := fun _ => some "parse error" }).trace :=
  ⟨(C7_no_degraded_startup sampleConfig fineWorld).2.2.2.2 (by decide), by decide,
    fun hm => absurd
      ((C7_no_degraded_startup sampleConfig { fineWorld with urlParse := fun _ => some "parse error" }).2.2.1 _ _ hm)
      (by decide)⟩

/-- C8: when startup reaches the listener (every fallible step before it succeeds), it
starts exactly one listener, on the router: the TLS listener with exactly the
configured HTTPS certificate and key if and only if both are non-empty, the plain HTTP
listener if and only if either is empty; the process then serves unless the listener
returns; and the choice depends on the configuration through these two values only, so
not on the certificate and key of the service provider. -/
theorem C8_listener_choice (C : Config) (w : World) (hok : StartupOK C w = true) :
    (Event.Listen (Listener.ListenAndServeTLS C.HttpsCertificate C.HttpsKey) router
        ∈ (startup C w).trace ↔ C.HttpsCertificate ≠ "" ∧ C.HttpsKey ≠ "") ∧
    (Event.Listen Listener.ListenAndServe router ∈ (startup C w).trace ↔
      C.HttpsCertificate = "" ∨ C.HttpsKey = "") ∧
    (∀ l h, Event.Listen l h ∈ (startup C w).trace → l = listener C ∧ h = router) ∧
    (w.Serve = none → (startup C w).status = Status.serving) ∧
    (∀ C' : Config, C'.HttpsCertificate = C.HttpsCertificate → C'.HttpsKey = C.HttpsKey →
      listener C' = listener C) := by
  have hin : Event.Listen (listener C) router ∈ (startup C w).trace := by
    rw [(startup_of_ok C w hok).1]
    simp
  refine ⟨?_, ?_, fun l h hm => startup_Listen C w l h hm, ?_, ?_⟩
  · constructor
    · intro hm
      have h := (startup_Listen C w _ _ hm).1
      unfold listener at h
      by_cases hk : C.HttpsKey = "" <;> by_cases hc : C.HttpsCertificate = "" <;>
        simp [hk, hc] at h ⊢
    · rintro ⟨hc, hk⟩
      have h : listener C = Listener.ListenAndServeTLS C.HttpsCertificate C.HttpsKey := by
        simp [listener, hc, hk]
      rw [← h]
      exact hin
  · constructor
    · intro hm
      have h := (startup_Listen C w _ _ hm).1
      unfold listener at h
      by_cases hk : C.HttpsKey = "" <;> by_cases hc : C.HttpsCertificate = "" <;>
        simp [hk, hc] at h ⊢
    · intro hor
      have h : listener C = Listener.ListenAndServe := by
        unfold listener
        rcases hor with hc | hk
        · simp [hc]
        · simp [hk]
      rw [← h]
      exact hin
  · intro hs
    rw [(startup_of_ok C w hok).2, hs]
  · intro C' hc hk
    simp [listener, hc, hk]

/-- C8, witness: with both HTTPS options set the TLS listener is started with them, and
with none set the plain HTTP listener is started. -/
theorem C8_listener_choice_witness :
    Event.Listen (Listener.ListenAndServeTLS "tls.crt" "tls.key") router
        ∈ (startup tlsConfig fineWorld).trace ∧
      Event.Listen Listener.ListenAndServe router ∈ (startup sampleConfig fineWorld).trace ∧
      (startup tlsConfig fineWorld).status = Status.serving :=
  ⟨(C8_listener_choice tlsConfig fineWorld (by decide)).1.2 ⟨by decide, by decide⟩,
    (C8_listener_choice sampleConfig fineWorld (by decide)).2.1.2 (Or.inl rfl),
    (C8_listener_choice tlsConfig fineWorld (by decide)).2.2.2.1 rfl⟩

/-! ## Command line -/

/-- Setting one flag leaves every other flag findable as before. -/
theorem find_map_set (l : List (String × String)) (name k value : String) (h : name ≠ k) :
    List.find? (fun d => d.1 == k) (l.map (fun d => if d.1 == name then (d.1, value) else d))
      = List.find? (fun d => d.1 == k) l := by
  induction l with
  | nil => rfl
  | cons d ds ih =>
    rw [List.map_cons, List.find?_cons, List.find?_cons, ih]
    by_cases hd : d.1 = k
    · have hn : (d.1 == name) = false := by
        rw [beq_eq_false_iff_ne]
        exact fun h' => h (h'.symm.trans hd)
      simp [hn]
    · by_cases hn : d.1 = name
      · have hk : (name == k) = false := by
          rw [beq_eq_false_iff_ne]; exact h
        have hd' : (d.1 == k) = false := by
          rw [beq_eq_false_iff_ne]; exact hd
        simp [hn, hk, hn ▸ hd']
      · have hn' : (d.1 == name) = false := by
          rw [beq_eq_false_iff_ne]; exact hn
        simp [hn']

/-- Setting one flag leaves the value of every other flag as it was. -/
theorem get_set_ne (f : FlagSet) (name k value : String) (h : name ≠ k) :
    (f.set name value).get k = f.get k := by
  unfold FlagSet.set FlagSet.get
  simp only [find_map_set _ _ _ _ h]

/-- A flag whose name starts with a dash keeps its value through `parseOne`: the name
that `parseOne` looks up never starts with a dash. -/
theorem parseOne_get (f : FlagSet) (k : String) (hk : k.data.head? = some '-') :
    f.parseOne.1.get k = f.get k := by
  unfold FlagSet.parseOne
  split
  · rfl
  · rename_i s rest hargs
    split
    · rfl
    · rfl
    · rename_i c0 c1 cs hs
      split
      · rfl
      · split
        · rfl
        · dsimp only
          generalize (if c1 = '-' then cs else c1 :: cs) = name
          split
          · rfl
          · rename_i n0 ns
            split
            · rfl
            · rename_i hn0
              have hne : String.mk (n0 :: (List.span (fun c => decide (c ≠ '=')) ns).1) ≠ k := by
                intro h
                rw [← h] at hk
                simp at hk
                exact hn0 (Or.inl hk)
              split
              · split
                · exact get_set_ne _ _ _ _ hne
                · split
                  · exact get_set_ne _ _ _ _ hne
                  · rfl
              · split <;> rfl

/-- A flag whose name starts with a dash keeps its value through the whole parse loop. -/
theorem parseLoop_get (k : String) (hk : k.data.head? = some '-') (fuel : Nat) :
    ∀ f f', FlagSet.parseLoop fuel f = Except.ok f' → f'.get k = f.get k := by
  induction fuel with
  | zero =>
    intro f f' h
    simp only [FlagSet.parseLoop, Except.ok.injEq] at h
    rw [h]
  | succ n ih =>
    intro f f' h
    have hone := parseOne_get f k hk
    unfold FlagSet.parseLoop at h
    split at h
    · rename_i g e heq
      rw [heq] at hone
      rw [ih g f' h]
      exact hone
    · rename_i g heq
      rw [heq] at hone
      simp only [Except.ok.injEq] at h
      rw [← h]
      exact hone
    · cases h

/-- Setting a flag leaves the arguments as they are. -/
theorem set_args (f : FlagSet) (name value : String) : (f.set name value).args = f.args := rfl

/-- A flag seen by `parseOne` consumes at least one argument. -/
theorem parseOne_args (f : FlagSet) (h : f.parseOne.2.1 = true) :
    f.parseOne.1.args.length < f.args.length := by
  revert h
  unfold FlagSet.parseOne
  split
  · simp
  · rename_i s rest hargs
    rw [hargs]
    split
    · simp
    · simp
    · rename_i c0 c1 cs hs
      split
      · simp
      · split
        · simp
        · dsimp only
          generalize (if c1 = '-' then cs else c1 :: cs) = name
          split
          · simp
          · split
            · simp
            · split
              · split
                · intro _
                  simp [set_args]
                · split
                  · intro _
                    simp only [set_args, List.length_cons]
                    omega
                  · simp
              · split <;> simp

/-- The parse loop is done within `args.length + 1` rounds: more fuel changes nothing. -/
theorem parseLoop_fuel (fuel : Nat) :
    ∀ f : FlagSet, f.args.length < fuel → FlagSet.parseLoop (fuel + 1) f = FlagSet.parseLoop fuel f := by
  induction fuel with
  | zero => intro f h; cases h
  | succ n ih =>
    intro f h
    have hlt := parseOne_args f
    rw [FlagSet.parseLoop.eq_2 f (n + 1), FlagSet.parseLoop.eq_2 f n]
    split
    · rename_i g e heq
      rw [heq] at hlt
      have hg : g.args.length < f.args.length := hlt rfl
      exact ih g (by omega)
    · rename_i g heq
      rfl
    · rfl

/-- The result of `flag.Parse` does not depend on fuel beyond `args.length + 1`. -/
theorem Parse_fuel (f : FlagSet) (arguments : List String) (n : Nat) :
    FlagSet.parseLoop (arguments.length + 1 + n) { f with args := arguments } = f.Parse arguments := by
  induction n with
  | zero => rfl
  | succ n ih =>
    rw [← ih, ← Nat.add_assoc]
    exact parseLoop_fuel _ _ (by simp; omega)

/-- C10: whatever the command line, parsing leaves the HTTPS certificate and key options
empty, so the listener condition picks plain HTTP, and no run of the program starts the
TLS listener. -/
theorem C10_https_never_taken (arguments : List String) :
    (∀ f, flags.Parse arguments = Except.ok f →
      f.config.HttpsCertificate = "" ∧ f.config.HttpsKey = "" ∧
        listener f.config = Listener.ListenAndServe) ∧
    (∀ w cert key h,
      Event.Listen (Listener.ListenAndServeTLS cert key) h ∉ (main arguments w).trace) := by
  have hparse : ∀ f, flags.Parse arguments = Except.ok f →
      f.config.HttpsCertificate = "" ∧ f.config.HttpsKey = "" := by
    intro f hf
    unfold FlagSet.Parse at hf
    constructor
    · exact parseLoop_get "-https-certificate" (by decide) _ _ _ hf
    · exact parseLoop_get "-https-key" (by decide) _ _ _ hf
  constructor
  · intro f hf
    obtain ⟨h1, h2⟩ := hparse f hf
    refine ⟨h1, h2, ?_⟩
    simp [listener, h2]
  · intro w cert key h hm
    unfold main at hm
    split at hm
    · simp [os.Exit] at hm
    · rename_i f hf
      obtain ⟨-, h2⟩ := hparse f hf
      have := (startup_Listen f.config w _ _ hm).1
      simp [listener, h2] at this


/-- C10, witness: a command line that parses leaves both HTTPS options empty. -/
theorem C10_https_never_taken_witness :
    ∃ f, flags.Parse ["-target", "http://backend:9000", "--idp-metadata=idp.xml"] = Except.ok f ∧
      f.config.Target = "http://backend:9000" ∧ f.config.IdpMetadata = "idp.xml" ∧
      f.config.HttpsCertificate = "" ∧ f.config.HttpsKey = "" ∧
      listener f.config = Listener.ListenAndServe :=
  ⟨_, rfl, rfl, rfl,
    (C10_https_never_taken ["-target", "http://backend:9000", "--idp-metadata=idp.xml"]).1 _ rfl⟩

/-- Every spelling of the HTTPS key option on the command line ends the process with
status 2: with one or two dashes the name looked up is "https-key", which no flag
carries; with three dashes the name starts with a dash, which is a syntax error. -/
theorem https_key_rejected (w : World) :
    main ["-https-key", "key.pem"] w = { trace := [Event.Exit 2], status := Status.exited 2 } ∧
      main ["--https-key=key.pem"] w = { trace := [Event.Exit 2], status := Status.exited 2 } ∧
      main ["---https-key", "key.pem"] w = { trace := [Event.Exit 2], status := Status.exited 2 } :=
  ⟨rfl, rfl, rfl⟩

/-! ## Load balancer -/

/-- Within the pool the default of `getD` plays no part. -/
theorem getD_default (l : List String) (i : Nat) (d e : String) (h : i < l.length) :
    l.getD i d = l.getD i e := by
  rw [List.getD_eq_getElem _ _ h, List.getD_eq_getElem _ _ h]

/-- The `k`-th selection from a state is the target at position `(index + k) % N`. -/
theorem selections_eq (M : Nat) :
    ∀ r : RoundRobin, r.servers ≠ [] →
      r.selections M
        = (List.range M).map (fun k => r.servers.getD ((r.index + k) % r.servers.length) "") := by
  induction M with
  | zero => intro r _; rfl
  | succ n ih =>
    intro r hne
    have hpos : 0 < r.servers.length := List.length_pos.mpr hne
    unfold RoundRobin.selections RoundRobin.NextServer
    cases hs : r.servers with
    | nil => exact absurd hs hne
    | cons x xs =>
      simp only
      rw [ih _ (by simp), List.range_succ_eq_map, List.map_cons, List.map_map]
      congr 1
      · simp only [Nat.add_zero]
        exact getD_default _ _ _ _ (Nat.mod_lt _ (by simp))
      · apply List.map_congr_left
        intro k _
        simp only [Function.comp]
        congr 1
        rw [Nat.mod_add_mod]
        congr 1
        omega

/-- Rounding up, in terms of rounding down. -/
theorem ceil_div (M N : Nat) (hN : 0 < N) :
    (M + N - 1) / N = M / N + if M % N = 0 then 0 else 1 := by
  have h := Nat.add_div (a := M) (b := N - 1) hN
  have h1 : (N - 1) / N = 0 := Nat.div_eq_of_lt (by omega)
  have h2 : (N - 1) % N = N - 1 := Nat.mod_eq_of_lt (by omega)
  have h3 : M % N < N := Nat.mod_lt _ hN
  have h4 : M + N - 1 = M + (N - 1) := by omega
  rw [h4, h, h1, h2]
  by_cases h0 : M % N = 0
  · have : ¬ N ≤ M % N + (N - 1) := by omega
    rw [if_neg this, if_pos h0]
  · have : N ≤ M % N + (N - 1) := by omega
    rw [if_pos this, if_neg h0]

/-- Among `M` consecutive numbers starting at `idx`, those in one residue class modulo `N`
number `M / N` rounded down or rounded up. -/
theorem window_count (N idx M i : Nat) (hN : 0 < N) :
    Nat.count (fun k => idx + k ≡ i [MOD N]) M = M / N ∨
      Nat.count (fun k => idx + k ≡ i [MOD N]) M = (M + N - 1) / N := by
  have h1 := Nat.count_add (p := fun j => j ≡ i [MOD N]) idx M
  rw [Nat.count_modEq_card _ hN, Nat.count_modEq_card _ hN] at h1
  rw [ceil_div M N hN]
  have hd := Nat.add_div (a := idx) (b := M) hN
  have hm : (idx + M) % N = if N ≤ idx % N + M % N then idx % N + M % N - N else idx % N + M % N := by
    rw [Nat.add_mod]
    have ha : idx % N < N := Nat.mod_lt _ hN
    have hb : M % N < N := Nat.mod_lt _ hN
    split
    · rw [Nat.mod_eq_sub_mod (by assumption), Nat.mod_eq_of_lt (by omega)]
    · exact Nat.mod_eq_of_lt (by omega)
  rw [hd, hm] at h1
  have ha : idx % N < N := Nat.mod_lt _ hN
  have hb : M % N < N := Nat.mod_lt _ hN
  generalize Nat.count (fun k => idx + k ≡ i [MOD N]) M = c at h1 ⊢
  generalize idx / N = qa at h1
  generalize M / N = qb at h1 ⊢
  generalize idx % N = ra at h1 ha
  generalize M % N = rb at h1 hb ⊢
  generalize i % N = v at h1
  split_ifs at h1 ⊢ <;> omega

/-- In a pool without duplicates, `M` selections in a row pick each target `M / N` times,
rounded down or up, from whatever rotation state they start. -/
theorem selections_count (r : RoundRobin) (M : Nat) (u : String) (hnd : r.servers.Nodup)
    (hu : u ∈ r.servers) :
    (r.selections M).count u = M / r.servers.length ∨
      (r.selections M).count u = (M + r.servers.length - 1) / r.servers.length := by
  have hne : r.servers ≠ [] := List.ne_nil_of_mem hu
  have hN : 0 < r.servers.length := List.length_pos.mpr hne
  obtain ⟨i, hi, hget⟩ := List.getElem_of_mem hu
  have hc : (r.selections M).count u
      = Nat.count (fun k => r.index + k ≡ i [MOD r.servers.length]) M := by
    rw [selections_eq M r hne, List.count, List.countP_map]
    unfold Nat.count
    apply List.countP_congr
    intro k _
    have hlt : (r.index + k) % r.servers.length < r.servers.length := Nat.mod_lt _ hN
    simp only [Function.comp, beq_iff_eq, decide_eq_true_eq]
    rw [List.getD_eq_getElem _ _ hlt, ← hget, hnd.getElem_inj_iff, Nat.ModEq, Nat.mod_eq_of_lt hi]
  rw [hc]
  exact window_count _ _ _ _ hN

/-- Upserting keeps the pool free of duplicates. -/
theorem UpsertServer_nodup (r : RoundRobin) (u : String) (h : r.servers.Nodup) :
    (r.UpsertServer u).servers.Nodup := by
  unfold RoundRobin.UpsertServer
  split
  · exact h
  · rename_i hu
    simp only
    rw [List.nodup_append]
    refine ⟨h, List.nodup_singleton u, ?_⟩
    intro a ha hb
    simp only [List.mem_singleton] at hb
    exact hu (hb ▸ ha)

/-- With a pool of one target, a pass through the load balancer dispatches one request,
to that target, and leaves the pool as it is. -/
theorem roundrobin_ServeHTTP_single (t : Transport) (path : String) (body : Reader)
    (s : ProxyState) (target : String) (h : s.lb.servers = [target]) :
    (roundrobin.ServeHTTP t path body s).2.2.lb.servers = [target] ∧
      (roundrobin.ServeHTTP t path body s).2.2.sent
        = s.sent ++ [{ target := target, path := path, body := body.readAll.1 }] := by
  have hn : s.lb.NextServer = some (target, { s.lb with index := (s.lb.index + 1) % 1 }) := by
    unfold RoundRobin.NextServer
    rw [h]
    simp [Nat.mod_one, h]
  unfold roundrobin.ServeHTTP forward.ServeHTTP
  rw [hn]
  simp only
  split <;> simp [h]

/-- With a pool of one target, whatever the attempt loop dispatches goes to that target,
and the pool stays as it is. -/
theorem loop_single (t : Transport) (path target : String) (fuel : Nat) :
    ∀ (attempt : Nat) (body : Reader) (s : ProxyState) (resp : Response) (s' : ProxyState),
      s.lb.servers = [target] →
      buffer.loop t path fuel attempt body s = some (resp, s') →
      s'.lb.servers = [target] ∧
        ∃ new, s'.sent = s.sent ++ new ∧ ∀ a ∈ new, a.target = target := by
  induction fuel with
  | zero =>
    intro attempt body s resp s' _ h
    simp [buffer.loop] at h
  | succ n ih =>
    intro attempt body s resp s' hs h
    obtain ⟨h1, h2⟩ := roundrobin_ServeHTTP_single t path body s target hs
    unfold buffer.loop at h
    generalize roundrobin.ServeHTTP t path body s = res at h h1 h2
    obtain ⟨resp1, body1, s1⟩ := res
    simp only at h h1 h2
    split at h
    · simp only [Option.some.injEq, Prod.mk.injEq] at h
      rw [← h.2]
      exact ⟨h1, _, h2, by simp⟩
    · obtain ⟨h3, new, h4, h5⟩ := ih _ _ _ _ _ h1 h
      refine ⟨h3, ⟨target, path, body.readAll.1⟩ :: new, ?_, ?_⟩
      · rw [h4, h2, List.append_assoc]
        rfl
      · intro a ha
        rcases List.mem_cons.mp ha with rfl | ha
        · rfl
        · exact h5 a ha

/-- C9: in a pool without duplicates (the only pools `UpsertServer` builds), `M` selections
in a row with no pool mutation pick each target `M / N` times rounded down or up; for
the pool of A then B, four selections, and four failure-free forwards, pick A, B, A, B;
the pool of startup holds exactly its one target, the buffer leaves the pool as it is
and every dispatch of every request, retries included, goes to that target. -/
theorem C9_round_robin :
    (∀ (r : RoundRobin) (M : Nat) (u : String), r.servers.Nodup → u ∈ r.servers →
      (r.selections M).count u = M / r.servers.length ∨
        (r.selections M).count u = (M + r.servers.length - 1) / r.servers.length) ∧
    (∀ (r : RoundRobin) (u : String), r.servers.Nodup → (r.UpsertServer u).servers.Nodup) ∧
    ((roundrobin.New.UpsertServer "A").UpsertServer "B").selections 4 = ["A", "B", "A", "B"] ∧
    (serveAll echoTransport
        [{ path := "/1", cookie := none, body := [] }, { path := "/2", cookie := none, body := [] },
         { path := "/3", cookie := none, body := [] }, { path := "/4", cookie := none, body := [] }]
        { lb := (roundrobin.New.UpsertServer "A").UpsertServer "B", sent := [] }).map
      (fun s => s.sent.map (fun a => a.target)) = some ["A", "B", "A", "B"] ∧
    (∀ target : String, (startLB target).servers = [target]) ∧
    (∀ (target : String) (M : Nat), (startLB target).selections M = List.replicate M target) ∧
    (∀ (target : String) (t : Transport) (req : Request) (s : ProxyState) (resp : Response)
        (s' : ProxyState),
      s.lb.servers = [target] → buffer.ServeHTTP t req s = some (resp, s') →
      s'.lb.servers = [target] ∧
        ∃ new, s'.sent = s.sent ++ new ∧ ∀ a ∈ new, a.target = target) := by
  refine ⟨selections_count, UpsertServer_nodup, by decide, by decide, fun _ => rfl, ?_, ?_⟩
  · intro target M
    have hs : (startLB target).servers = [target] := rfl
    rw [selections_eq M _ (by rw [hs]; simp), hs]
    simp only [List.length_singleton, Nat.mod_one, List.getD_cons_zero]
    exact List.map_const' _ _ ▸ by simp
  · intro target t req s resp s' hs h
    exact loop_single t req.path target _ _ _ _ _ _ hs h

/-- C9, witness: seven selections over a pool of three pick "b" twice, which is 7 / 3. -/
theorem C9_round_robin_witness :
    (RoundRobin.selections 7 { servers := ["a", "b", "c"], index := 2 }).count "b" = 7 / 3 ∨
      (RoundRobin.selections 7 { servers := ["a", "b", "c"], index := 2 }).count "b"
        = (7 + 3 - 1) / 3 :=
  C9_round_robin.1 { servers := ["a", "b", "c"], index := 2 } 7 "b" (by decide) (by decide)

end SamlSpProxy
